import Mathlib

/-!
Shallow embedding of the beatwatch-process repository
(`src/beatwatch_process/parsers.py` and `src/beatwatch_process/filedata.py`).

Conventions used throughout:

- Every instant and duration is an integer number of nanoseconds, pandas'
  internal `datetime64[ns]` / `timedelta64[ns]` representation.  Timezone
  conversion (`tz_convert`) only changes how a tz-aware timestamp is
  displayed, never the instant it denotes, so it is the identity here.
- Machine-integer casts (`DataFrame.astype`) are modelled explicitly: numpy
  fixed-width dtypes wrap around, the nullable `UInt8` extension dtype
  range-checks and raises on overflow.
- Fallible Python code is modelled in `Except PyErr`; exceptions the source
  catches are handled exactly where the source catches them.
- `pd.NaT` / missing values are `Option.none`.
-/

namespace Beatwatch

/-- Python exception classes the modelled code can raise. -/
inductive PyErr
  | indexError
  | keyError (k : String)
  | attrError
  | typeError
  | valueError
  deriving DecidableEq

/-- Python scalar and container values flowing through the model: everything
`json.loads` can produce from a device line, plus the `Timedelta`/`NaT`
summary values written into metadata after parsing. -/
inductive PyVal
  | str (s : String)
  | int (n : Int)
  | bool (b : Bool)
  | null
  | list (xs : List PyVal)
  | dict (kvs : List (String × PyVal))
  | timedelta (t : Option Int)

/-- Python dict update `d[k] = v` on an insertion-ordered association list:
overwrite in place when the key exists, append otherwise. -/
def dictSet (m : List (String × PyVal)) (k : String) (v : PyVal) :
    List (String × PyVal) :=
  match m with
  | [] => [(k, v)]
  | (k', v') :: t => if k' = k then (k, v) :: t else (k', v') :: dictSet t k v

/-- Python dict lookup (`d[k]` and `k in d`); `none` when the key is absent. -/
def dictGet (m : List (String × PyVal)) (k : String) : Option PyVal :=
  match m with
  | [] => none
  | (k', v') :: t => if k' = k then some v' else dictGet t k

/-- The flat metadata mapping built by the parser. -/
abbrev Metadata := List (String × PyVal)

def skipWs (cs : List Char) : List Char :=
  cs.dropWhile fun c => c == ' ' || c == '\t' || c == '\n' || c == '\r'

/-- Body of a JSON string literal, after the opening quote. -/
def parseJsonString : List Char → Option (String × List Char)
  | [] => none
  | '"' :: r => some ("", r)
  | '\\' :: e :: r => do
    let c ← match e with
      | '"' => some '"'
      | '\\' => some '\\'
      | '/' => some '/'
      | 'n' => some '\n'
      | 't' => some '\t'
      | 'r' => some '\r'
      | 'b' => some (Char.ofNat 8)
      | 'f' => some (Char.ofNat 12)
      | _ => none
    let (s, rest) ← parseJsonString r
    some (String.mk (c :: s.toList), rest)
  | c :: r => do
    let (s, rest) ← parseJsonString r
    some (String.mk (c :: s.toList), rest)

def digitsToNat (ds : List Char) : Nat :=
  ds.foldl (fun a c => a * 10 + (c.toNat - 48)) 0

/-- A JSON integer literal; numbers with a fractional part or exponent are
outside the modelled subset (the device writes integers). -/
def parseJsonNat (cs : List Char) : Option (Nat × List Char) :=
  let ds := cs.takeWhile Char.isDigit
  let rest := cs.dropWhile Char.isDigit
  if ds = [] then none
  else
    match rest with
    | '.' :: _ => none
    | 'e' :: _ => none
    | 'E' :: _ => none
    | _ => some (digitsToNat ds, rest)

mutual

/-- A JSON value (fuel-indexed recursive descent). -/
def parseJsonVal : Nat → List Char → Option (PyVal × List Char)
  | 0, _ => none
  | fuel + 1, cs =>
    match skipWs cs with
    | '{' :: r =>
      (match skipWs r with
      | '}' :: r2 => some (.dict [], r2)
      | _ => parseJsonMembers fuel (skipWs r) [])
    | '[' :: r =>
      (match skipWs r with
      | ']' :: r2 => some (.list [], r2)
      | _ => parseJsonElems fuel (skipWs r) [])
    | '"' :: r => do
      let (s, rest) ← parseJsonString r
      some (.str s, rest)
    | 't' :: 'r' :: 'u' :: 'e' :: r => some (.bool true, r)
    | 'f' :: 'a' :: 'l' :: 's' :: 'e' :: r => some (.bool false, r)
    | 'n' :: 'u' :: 'l' :: 'l' :: r => some (.null, r)
    | '-' :: r => do
      let (n, rest) ← parseJsonNat r
      some (.int (-(n : Int)), rest)
    | c :: r =>
      if c.isDigit then do
        let (n, rest) ← parseJsonNat (c :: r)
        some (.int (n : Int), rest)
      else none
    | [] => none

/-- Members of a JSON object (duplicate keys: last one wins, as in Python). -/
def parseJsonMembers : Nat → List Char → List (String × PyVal) →
    Option (PyVal × List Char)
  | 0, _, _ => none
  | fuel + 1, cs, acc =>
    match skipWs cs with
    | '"' :: r => do
      let (k, r1) ← parseJsonString r
      match skipWs r1 with
      | ':' :: r2 => do
        let (v, r3) ← parseJsonVal fuel r2
        let acc' := dictSet acc k v
        (match skipWs r3 with
        | ',' :: r4 => parseJsonMembers fuel r4 acc'
        | '}' :: r4 => some (.dict acc', r4)
        | _ => none)
      | _ => none
    | _ => none

/-- Elements of a JSON array. -/
def parseJsonElems : Nat → List Char → List PyVal → Option (PyVal × List Char)
  | 0, _, _ => none
  | fuel + 1, cs, acc =>
    match parseJsonVal fuel cs with
    | none => none
    | some (v, r) =>
      match skipWs r with
      | ',' :: r2 => parseJsonElems fuel r2 (acc ++ [v])
      | ']' :: r2 => some (.list (acc ++ [v]), r2)
      | _ => none

end

/-- Model of `json.loads` on one line, restricted to the value shapes the
device emits (objects, arrays, strings, integers, booleans, null); `none`
models `json.JSONDecodeError`. -/
def jsonLoads (s : String) : Option PyVal :=
  match parseJsonVal (s.length + 1) s.toList with
  | some (v, rest) => if skipWs rest = [] then some v else none
  | none => none

/-- Python default `str.strip()` whitespace. -/
def isPySpace (c : Char) : Bool :=
  c == ' ' || c == '\t' || c == '\n' || c == '\r' || c == Char.ofNat 11 || c == Char.ofNat 12

/-- Python `s.strip()`: remove leading and trailing whitespace. -/
def pyTrim (s : String) : String :=
  String.mk (((s.toList.dropWhile isPySpace).reverse.dropWhile isPySpace).reverse)

/-- Python `s[0] == c` for a non-empty string (`false` on an empty one, the
callers only use it where Python guards emptiness separately). -/
def firstCharIs (s : String) (c : Char) : Bool :=
  match s.toList with
  | c' :: _ => c' == c
  | [] => false

/-- The float threshold `0.2` of the legacy heart-rate transform, as an
exact rational. -/
def versionThreshold : ℚ := mkRat 2 10

/-- A cell of a raw csv row: Python keeps the fields as `str`, except that
the version-< 0.2 heart-rate transform writes an `int` back into the row. -/
inductive Cell
  | str (s : String)
  | int (n : Int)
  deriving DecidableEq

/-- Python `int(s)` for a string: optional surrounding whitespace, optional
sign, at least one decimal digit; `none` models `ValueError`. -/
def parseIntPy (s : String) : Option Int :=
  match (pyTrim s).toList with
  | '-' :: ds =>
    if ds ≠ [] ∧ ds.all Char.isDigit then some (-(digitsToNat ds : Int)) else none
  | '+' :: ds =>
    if ds ≠ [] ∧ ds.all Char.isDigit then some ((digitsToNat ds : Int)) else none
  | ds =>
    if ds ≠ [] ∧ ds.all Char.isDigit then some ((digitsToNat ds : Int)) else none

/-- Python `round(n / 10)` for an integer `n`: the quotient is exact in double
precision over the device's value range and `round` is round-half-to-even. -/
def pyRoundDiv10 (n : Int) : Int :=
  let q := n.ediv 10
  let r := n.emod 10
  if r < 5 then q
  else if 5 < r then q + 1
  else if q.emod 2 = 0 then q else q + 1

/-- numpy fixed-width signed-integer conversion (wrap-around). -/
def wrapInt (w : Nat) (n : Int) : Int :=
  (n + 2 ^ (w - 1)) % 2 ^ w - 2 ^ (w - 1)

/-- The per-column dtypes of `Parser.cols_hr` / `Parser.cols_accel`. -/
inductive ColType
  | i64
  | i32
  | i16
  | u8
  deriving DecidableEq

/-- The numeric content of one cell as seen by `DataFrame.astype`. -/
def cellInt : Cell → Option Int
  | .str s => parseIntPy s
  | .int n => some n

/-- One cell of `DataFrame.astype` on an object column: numpy dtypes wrap,
the nullable `UInt8` dtype range-checks and raises on overflow. -/
def castCell (t : ColType) (c : Cell) : Except PyErr Int :=
  match cellInt c with
  | none => .error .valueError
  | some n =>
    match t with
    | .i64 => .ok (wrapInt 64 n)
    | .i32 => .ok (wrapInt 32 n)
    | .i16 => .ok (wrapInt 16 n)
    | .u8 => if 0 ≤ n ∧ n < 256 then .ok n else .error .valueError

/-- Dtypes of `cols_hr`: time_elapsed int64, heart_rate_bpm int16,
confidence UInt8, ppg_raw int32, ppg_filter int32. -/
def hrColTypes : List ColType := [.i64, .i16, .u8, .i32, .i32]

/-- Dtypes of `cols_accel`: time_elapsed int64 then five int32 columns. -/
def accelColTypes : List ColType := [.i64, .i32, .i32, .i32, .i32, .i32]

/-- `astype` over one row of an accumulated batch. -/
def castRow (ts : List ColType) (r : List Cell) : Except PyErr (List Int) :=
  match ts, r with
  | [], _ => .ok []
  | _, [] => .ok []
  | t :: ts', c :: r' => do
    let n ← castCell t c
    let rest ← castRow ts' r'
    .ok (n :: rest)

/-- `pd.to_timedelta(df[time_elapsed], unit=ms)`: scale the first column
(`time_elapsed`) from integer milliseconds to nanoseconds. -/
def scaleElapsed (r : List Int) : List Int :=
  match r with
  | [] => []
  | e :: rest => e * 1000000 :: rest

/-- The rows with an empty-string cell, i.e. those turned into missing values
by `replace` and removed by `dropna` in `_dataframe_from_list`. -/
def hasEmptyCell (r : List Cell) : Bool := r.any fun c => c == Cell.str ""

/-- `astype` over every surviving row. -/
def castRows (ts : List ColType) : List (List Cell) → Except PyErr (List (List Int))
  | [] => .ok []
  | r :: rest => do
    let x ← castRow ts r
    let xs ← castRows ts rest
    .ok (x :: xs)

/-- Cast the surviving rows and convert the `time_elapsed` column. -/
def castKeptRows (ts : List ColType) (kept : List (List Cell)) :
    Except PyErr (List (List Int)) := do
  let cast ← castRows ts kept
  .ok (cast.map scaleElapsed)

/-- `Parser._dataframe_from_list`: replace empty-string cells by the missing
marker, drop every row containing a missing value (reporting the dropped
count), cast the columns to their declared dtypes, and convert
`time_elapsed` from integer milliseconds to a duration. -/
def dataframe_from_list (rows : List (List Cell)) (ts : List ColType) :
    Except PyErr (List (List Int) × Nat) := do
  let kept := rows.filter fun r => !(hasEmptyCell r)
  let cast ← castKeptRows ts kept
  .ok (cast, rows.length - kept.length)

/-- A row of one of the relative-time tables: `time_elapsed` (ns), the other
typed columns as payload, and the back-filled `time_absolute` column. -/
structure TRow (α : Type) where
  time_elapsed : Int
  payload : α
  time_absolute : Option Int
  deriving DecidableEq

/-- The non-time columns of a heart-rate row. -/
structure HrFields where
  heart_rate_bpm : Int
  confidence : Int
  ppg_raw : Int
  ppg_filter : Int
  deriving DecidableEq

/-- The non-time columns of an accelerometer row. -/
structure AccelFields where
  x : Int
  y : Int
  z : Int
  magnitude : Int
  difference : Int
  deriving DecidableEq

/-- View a cast hr row (always exactly 5 columns, enforced by the
classifier's field-count check) as a named record. -/
def toHrRow (r : List Int) : TRow HrFields :=
  match r with
  | [e, b, c, p, q] => ⟨e, ⟨b, c, p, q⟩, none⟩
  | _ => ⟨0, ⟨0, 0, 0, 0⟩, none⟩

/-- View a cast accel row (always exactly 6 columns) as a named record. -/
def toAccelRow (r : List Int) : TRow AccelFields :=
  match r with
  | [e, x, y, z, m, d] => ⟨e, ⟨x, y, z, m, d⟩, none⟩
  | _ => ⟨0, ⟨0, 0, 0, 0, 0⟩, none⟩

/-- The console diagnostics the parser can emit. -/
inductive Diag
  | decodeErr (lineNo : Nat)
  | badAccel (row : List String)
  | badHr (row : List String)
  | unknownData (row : List String)
  | readErr
  | fileNotFound
  | unknownObj
  | noMetadata
  | droppedRows (n : Nat)
  deriving DecidableEq

/-- Parser configuration: the timezone name fixed at construction time and
the wall-clock reading returned by `get_utc_now` (an input of the model). -/
structure Parser where
  timezone : String
  now : String

/-- Python `s.startswith("A")` for the single-character prefix used by the
classifier. -/
def pyStartsWithA (s : String) : Bool :=
  match s.toList with
  | c :: _ => c == 'A'
  | [] => false

/-- Python `s[0].isdigit()` for a non-empty string (the classifier reaches
this test only after raising `IndexError` on an empty first field). -/
def firstCharIsDigit (s : String) : Bool :=
  match s.toList with
  | c :: _ => c.isDigit
  | [] => false

/-- Python `s.strip("A")`: remove every leading and trailing `A`. -/
def stripA (s : String) : String :=
  String.mk (((s.toList.dropWhile (· == 'A')).reverse.dropWhile (· == 'A')).reverse)

/-- Splitting state for one csv line. -/
inductive CsvMode
  | fieldStart
  | unquoted
  | quoted

def csvSplitAux : List Char → CsvMode → String → List String → List String
  | [], _, cur, acc => acc ++ [cur]
  | c :: r, .fieldStart, cur, acc =>
    if c = ',' then csvSplitAux r .fieldStart "" (acc ++ [cur])
    else if c = '"' then csvSplitAux r .quoted cur acc
    else csvSplitAux r .unquoted (cur.push c) acc
  | c :: r, .unquoted, cur, acc =>
    if c = ',' then csvSplitAux r .fieldStart "" (acc ++ [cur])
    else csvSplitAux r .unquoted (cur.push c) acc
  | '"' :: '"' :: r, .quoted, cur, acc => csvSplitAux r .quoted (cur.push '"') acc
  | '"' :: r, .quoted, cur, acc => csvSplitAux r .unquoted cur acc
  | c :: r, .quoted, cur, acc => csvSplitAux r .quoted (cur.push c) acc

/-- Model of `next(csv.reader([line]))` for one stripped, non-empty line:
comma-separated fields with double-quote quoting and doubled-quote escapes. -/
def csvSplit (s : String) : List String :=
  csvSplitAux s.toList .fieldStart "" []

/-- What the classifier decides to do with one parsed csv row. -/
inductive RowAct
  | accel (cells : List Cell)
  | hr (cells : List Cell)
  | note (d : Diag)
  | skip
  deriving DecidableEq

/-- The csv elif-chain of `Parser.parse_file` for one parsed row: accept an
accel row (`A` sentinel, 6 fields, sentinel stripped), accept an hr row
(digit-initial first field, 5 fields, version-< 0.2 transform of `row[1]`),
or emit a bad-row / unknown-data diagnostic.  Reading `row[0][0]` of an
empty first field raises `IndexError`; `int(row[1])` of a non-numeric field
raises `ValueError`. -/
def classify_row (version : ℚ) (row : List String) : Except PyErr RowAct :=
  match row with
  | [] => .ok .skip
  | r0 :: rest =>
    if pyStartsWithA r0 ∧ (r0 :: rest).length = 6 then
      .ok (.accel (Cell.str (stripA r0) :: rest.map Cell.str))
    else if pyStartsWithA r0 then
      .ok (.note (.badAccel (r0 :: rest)))
    else if r0 = "" then
      .error .indexError
    else if firstCharIsDigit r0 ∧ (r0 :: rest).length = 5 then
      match rest with
      | [f1, f2, f3, f4] =>
        if version < versionThreshold then
          match parseIntPy f1 with
          | some n1 =>
            .ok (.hr [Cell.str r0, Cell.int (pyRoundDiv10 n1), Cell.str f2,
                      Cell.str f3, Cell.str f4])
          | none => .error .valueError
        else
          .ok (.hr [Cell.str r0, Cell.str f1, Cell.str f2, Cell.str f3,
                    Cell.str f4])
      | _ => .error .typeError
    else if firstCharIsDigit r0 then
      .ok (.note (.badHr (r0 :: rest)))
    else
      .ok (.note (.unknownData (r0 :: rest)))

/-- The accumulating state of the reading loop of `parse_file`. -/
structure PState where
  lineNo : Nat
  jsonObjs : List (Nat × PyVal)
  rowsHr : List (List Cell)
  rowsAccel : List (List Cell)
  diags : List Diag

def initState : PState := ⟨0, [], [], [], []⟩

/-- One iteration of the reading loop: strip the line, skip it when blank,
decode a `{`-initial line as JSON (decode failure is only a diagnostic),
otherwise csv-split and classify. -/
def step_line (version : ℚ) (st : PState) (raw : String) : Except PyErr PState :=
  let line := pyTrim raw
  let st' : PState := { st with lineNo := st.lineNo + 1 }
  if line = "" then .ok st'
  else if firstCharIs line '{' then
    match jsonLoads line with
    | some v => .ok { st' with jsonObjs := st.jsonObjs ++ [(st.lineNo, v)] }
    | none => .ok { st' with diags := st.diags ++ [.decodeErr st.lineNo] }
  else
    match classify_row version (csvSplit line) with
    | .error e => .error e
    | .ok (.accel cells) => .ok { st' with rowsAccel := st.rowsAccel ++ [cells] }
    | .ok (.hr cells) => .ok { st' with rowsHr := st.rowsHr ++ [cells] }
    | .ok (.note d) => .ok { st' with diags := st.diags ++ [d] }
    | .ok .skip => .ok st'

/-- The reading loop of `parse_file`: the surrounding `try` catches any
exception raised while reading, logs it, and abandons the remaining lines
while keeping everything accumulated so far. -/
def read_lines (version : ℚ) : List String → PState → PState
  | [], st => st
  | l :: ls, st =>
    match step_line version st l with
    | .ok st' => read_lines version ls st'
    | .error _ => { st with diags := st.diags ++ [.readErr] }

/-- `Parser._get_start_timestamp`: `pd.to_datetime(value, utc=True)` is
called WITHOUT a `unit` argument, so an integer value is interpreted with
the pandas default unit of nanoseconds since the epoch; a missing key or a
failed conversion (any non-integer value the device could write here) is
caught and yields NaT. -/
def get_start_timestamp (m : Metadata) : Option Int :=
  match dictGet m "start_UNIXTimeStamp" with
  | some (.int n) => some n
  | _ => none

/-- `Parser._process_absolute_timestamps`:
`df[time_absolute] = df[time_elapsed] + start`, where adding NaT gives NaT. -/
def process_absolute_timestamps {α : Type} (m : Metadata) (df : List (TRow α)) :
    List (TRow α) :=
  df.map fun r =>
    { r with time_absolute := (get_start_timestamp m).map fun s => r.time_elapsed + s }

/-- Copy `kvs` into the metadata with a key prefix (`meta_out[p + k] = v`). -/
def prefixInto (p : String) (kvs : List (String × PyVal)) (m : Metadata) : Metadata :=
  kvs.foldl (fun acc kv => dictSet acc (p ++ kv.1) kv.2) m

/-- Python `v == "lit"` for an arbitrary value against a string literal. -/
def isStr (v : PyVal) (s : String) : Bool :=
  match v with
  | .str t => t = s
  | _ => false

/-- One object of the dispatch loop in `Parser._process_json_objs`:
`File` entries are copied verbatim, `Status` entries with prefix `status_`
(then `Record` entries with `start_`/`stop_` according to `Status.state`),
legacy `Record` objects by their own `State`, `question` objects join the
survey batch, anything else is an unknown-object diagnostic.  Missing nested
keys raise `KeyError`; `.items()` on a non-dict raises `AttributeError`;
subscripting a non-dict raises `TypeError`. -/
def process_obj (acc : Metadata × List (List (String × PyVal)) × List Diag)
    (obj : PyVal) :
    Except PyErr (Metadata × List (List (String × PyVal)) × List Diag) :=
  let (m, sv, ds) := acc
  match obj with
  | .dict d =>
    match dictGet d "File" with
    | some (.dict kvs) => .ok (prefixInto "" kvs m, sv, ds)
    | some _ => .error .attrError
    | none =>
      match dictGet d "Status" with
      | some (.dict skvs) =>
        let m1 := prefixInto "status_" skvs m
        (match dictGet skvs "state" with
        | none => .error (.keyError "state")
        | some stv =>
          if isStr stv "START_RECORD" then
            match dictGet d "Record" with
            | none => .error (.keyError "Record")
            | some (.dict rkvs) => .ok (prefixInto "start_" rkvs m1, sv, ds)
            | some _ => .error .attrError
          else if isStr stv "STOP_RECORD" then
            match dictGet d "Record" with
            | none => .error (.keyError "Record")
            | some (.dict rkvs) => .ok (prefixInto "stop_" rkvs m1, sv, ds)
            | some _ => .error .attrError
          else .ok (m1, sv, ds))
      | some _ => .error .attrError
      | none =>
        match dictGet d "Record" with
        | some (.dict rkvs) =>
          (match dictGet rkvs "State" with
          | none => .error (.keyError "State")
          | some stv =>
            if isStr stv "START_RECORD" then .ok (prefixInto "start_" rkvs m, sv, ds)
            else if isStr stv "STOP_RECORD" then .ok (prefixInto "stop_" rkvs m, sv, ds)
            else .ok (m, sv, ds))
        | some _ => .error .typeError
        | none =>
          match dictGet d "question" with
          | some _ => .ok (m, sv ++ [d], ds)
          | none => .ok (m, sv, ds ++ [.unknownObj])
  | _ => .error .typeError

/-- The survey-table row as it leaves `_process_json_objs` (the raw
`timeStamp` column is already dropped). -/
structure SurveyRow where
  number : Int
  item : Int
  question : Option PyVal
  input : Option PyVal
  range : Option PyVal
  response : Option PyVal
  time_elapsed : Option Int
  time_absolute : Option Int

/-- `astype(int64)` on one survey cell: a missing value is NaN and raises. -/
def castI64Survey : Option PyVal → Except PyErr Int
  | some (.int n) => .ok (wrapInt 64 n)
  | some (.str s) =>
    (match parseIntPy s with
    | some n => .ok (wrapInt 64 n)
    | none => .error .valueError)
  | some (.bool b) => .ok (if b then 1 else 0)
  | some .null => .error .valueError
  | some _ => .error .typeError
  | none => .error .valueError

/-- `astype(float64)` of the integer-valued `timeStamp` cell; a missing
value stays NaN (`none`). -/
def castMsOpt : Option PyVal → Except PyErr (Option Int)
  | some (.int n) => .ok (some n)
  | some (.str s) =>
    (match parseIntPy s with
    | some n => .ok (some n)
    | none => .error .valueError)
  | some (.bool b) => .ok (some (if b then 1 else 0))
  | some .null => .ok none
  | some _ => .error .typeError
  | none => .ok none

/-- `astype(category)`: unhashable values (dict, list) raise. -/
def castCat : Option PyVal → Except PyErr (Option PyVal)
  | some (.dict _) => .error .typeError
  | some (.list _) => .error .typeError
  | some v => .ok (some v)
  | none => .ok none

/-- `astype(object)`: accepts anything. -/
def castAny : Option PyVal → Except PyErr (Option PyVal)
  | some v => .ok (some v)
  | none => .ok none

/-- Survey-table construction per batched response (tail of
`_process_json_objs`): schema cast, `time_absolute` from `timeStamp`
interpreted with `unit=ms` (so ×10^6 to ns), then
`time_elapsed = time_absolute - record_start_timestamp` (NaT propagates). -/
def build_survey_row (start : Option Int) (d : List (String × PyVal)) :
    Except PyErr SurveyRow := do
  let number ← castI64Survey (dictGet d "number")
  let item ← castI64Survey (dictGet d "item")
  let tsMs ← castMsOpt (dictGet d "timeStamp")
  let q ← castCat (dictGet d "question")
  let inp ← castCat (dictGet d "input")
  let rg ← castAny (dictGet d "range")
  let resp ← castAny (dictGet d "response")
  let tAbs := tsMs.map (· * 1000000)
  let tEl :=
    match tAbs, start with
    | some a, some s => some (a - s)
    | _, _ => none
  .ok ⟨number, item, q, inp, rg, resp, tEl, tAbs⟩

/-- `Parser._process_json_objs`: baseline metadata, the dispatch loop over
the decoded objects (in file order), then the survey table. -/
def process_json_objs (pr : Parser) (objs : List (Nat × PyVal)) :
    Except PyErr (Metadata × List SurveyRow × List Diag) := do
  let m0 : Metadata :=
    [("Parsed_on", .str pr.now), ("StudyName", .str "NA"),
     ("StudyInstance", .str "NA")]
  let (m, sv, ds) ←
    match objs with
    | [] => .ok (m0, ([] : List (List (String × PyVal))), [Diag.noMetadata])
    | _ => objs.foldlM (fun acc nv => process_obj acc nv.2) (m0, [], [])
  let start := get_start_timestamp m
  let survey ← sv.mapM (build_survey_row start)
  .ok (m, survey, ds)

/-- `Parser.update_metadata`: replace or add each new entry. -/
def update_metadata (original : Metadata) (upd : List (String × PyVal)) : Metadata :=
  upd.foldl (fun acc kv => dictSet acc kv.1 kv.2) original

/-- `df[time_elapsed].max()`: NaT (`none`) on an empty table. -/
def maxElapsed {α : Type} (df : List (TRow α)) : Option Int :=
  (df.map fun r => r.time_elapsed).max?

/-- Everything `parse_file` computes before assembling the bundle. -/
structure ParseOut where
  hr : List (TRow HrFields)
  accel : List (TRow AccelFields)
  survey : List SurveyRow
  meta : Metadata
  diags : List Diag

/-- The state after the reading phase of `parse_file`.  `file = none` models
a file that cannot be opened (the caught `FileNotFoundError` / IO error):
the reading loop is skipped and every accumulator stays empty. -/
def read_state (file : Option (List String)) (version : ℚ) : PState :=
  match file with
  | none => { initState with diags := [Diag.fileNotFound] }
  | some ls => read_lines version ls initState

/-- The table-construction and metadata-enrichment phase of `parse_file`
(everything after the reading loop). -/
def assemble_tables (pr : Parser) (st : PState) : Except PyErr ParseOut := do
  let (hrCast, nDropHr) ← dataframe_from_list st.rowsHr hrColTypes
  let (accelCast, nDropAccel) ← dataframe_from_list st.rowsAccel accelColTypes
  let (meta1, survey, jsonDiags) ← process_json_objs pr st.jsonObjs
  let hr := process_absolute_timestamps meta1 (hrCast.map toHrRow)
  let accel := process_absolute_timestamps meta1 (accelCast.map toAccelRow)
  let upd : List (String × PyVal) :=
    [("n_samples_hr", .int (hr.length : Int)),
     ("n_samples_accel", .int (accel.length : Int)),
     ("n_survey_responses", .int (survey.length : Int)),
     ("duration_hr", .timedelta (maxElapsed hr)),
     ("duration_accel", .timedelta (maxElapsed accel))]
  let meta2 := update_metadata meta1 upd
  let dropDiags :=
    (if 0 < nDropHr then [Diag.droppedRows nDropHr] else [])
      ++ (if 0 < nDropAccel then [Diag.droppedRows nDropAccel] else [])
  .ok ⟨hr, accel, survey, meta2, st.diags ++ dropDiags ++ jsonDiags⟩

/-- `Parser.parse_file` up to bundle assembly: read, then build the tables
and metadata. -/
def parse_tables (pr : Parser) (file : Option (List String)) (version : ℚ) :
    Except PyErr ParseOut :=
  assemble_tables pr (read_state file version)

/-- The returned bundle (`FileData` of `filedata.py`): metadata always, each
table key only when its dataframe is non-empty. -/
structure FileData where
  metadata : Metadata
  data_hr : Option (List (TRow HrFields))
  data_accel : Option (List (TRow AccelFields))
  data_survey : Option (List SurveyRow)

/-- `Parser.parse_file`. -/
def parse_file (pr : Parser) (file : Option (List String)) (version : ℚ) :
    Except PyErr FileData := do
  let o ← parse_tables pr file version
  .ok { metadata := o.meta,
        data_hr := if o.hr.isEmpty then none else some o.hr,
        data_accel := if o.accel.isEmpty then none else some o.accel,
        data_survey := if o.survey.isEmpty then none else some o.survey }

/-- A `pd.Timestamp` or `pd.Timedelta` argument of `select_period` (ns). -/
inductive PyTime
  | ts (v : Int)
  | td (v : Int)
  deriving DecidableEq

/-- Python truthiness of the time arguments: `Timestamp` defines no
`__bool__` and is always truthy; `Timedelta` inherits `timedelta.__bool__`,
so a zero `Timedelta` is falsy. -/
def PyTime.truthy : PyTime → Bool
  | .ts _ => true
  | .td v => v != 0

/-- Truthiness of an optional argument (`None` is falsy). -/
def truthyOpt : Option PyTime → Bool
  | none => false
  | some t => t.truthy

/-- `Timestamp`/`Timedelta` addition; `Timestamp + Timestamp` raises. -/
def addPy : PyTime → PyTime → Except PyErr PyTime
  | .ts a, .td b => .ok (.ts (a + b))
  | .td a, .ts b => .ok (.ts (a + b))
  | .td a, .td b => .ok (.td (a + b))
  | .ts _, .ts _ => .error .typeError

/-- `Timestamp`/`Timedelta` subtraction; `Timedelta - Timestamp` raises. -/
def subPy : PyTime → PyTime → Except PyErr PyTime
  | .ts a, .td b => .ok (.ts (a - b))
  | .ts a, .ts b => .ok (.td (a - b))
  | .td a, .td b => .ok (.td (a - b))
  | .td _, .ts _ => .error .typeError

/-- Window resolution of `select_period` (the `if time_start and time_end`
elif chain with Python truthiness; no branch fits → `raise ValueError`).
A truthy argument is necessarily present, so the `getD` default is dead. -/
def resolve_window (time_start time_end duration : Option PyTime) :
    Except PyErr (PyTime × PyTime) :=
  if truthyOpt time_start && truthyOpt time_end then
    .ok (time_start.getD (.ts 0), time_end.getD (.ts 0))
  else if truthyOpt time_start && truthyOpt duration then do
    let t2 ← addPy (time_start.getD (.ts 0)) (duration.getD (.ts 0))
    .ok (time_start.getD (.ts 0), t2)
  else if truthyOpt time_end && truthyOpt duration then do
    let t1 ← subPy (time_end.getD (.ts 0)) (duration.getD (.ts 0))
    .ok (t1, time_end.getD (.ts 0))
  else .error .valueError

/-- A row of a parsed table as `select_period` sees it: the two time columns
plus an opaque payload standing for the remaining columns. -/
structure Row where
  time_absolute : Option Int
  time_elapsed : Option Int
  payload : Int
  deriving DecidableEq

/-- The inclusive mask `(t1 <= column) & (column <= t2)`; a NaT cell
compares false on both sides. -/
def inWindow (t1 t2 : Int) (c : Option Int) : Bool :=
  match c with
  | none => false
  | some x => decide (t1 ≤ x) && decide (x ≤ t2)

/-- `select_period._select` on one dataframe: copy, mask inclusively on the
chosen time column.  Comparing a datetime column against a `Timedelta` bound
(or a timedelta column against a `Timestamp`) raises `TypeError`; an unknown
column name raises `KeyError`. -/
def select_frame (t1 t2 : PyTime) (colName : String) (f : List Row) :
    Except PyErr (List Row) :=
  if colName = "time_absolute" then
    match t1, t2 with
    | .ts a, .ts b => .ok (f.filter fun r => inWindow a b r.time_absolute)
    | _, _ => .error .typeError
  else if colName = "time_elapsed" then
    match t1, t2 with
    | .td a, .td b => .ok (f.filter fun r => inWindow a b r.time_elapsed)
    | _, _ => .error .typeError
  else .error (.keyError colName)

/-- An entry of a `FileData` bundle as `select_period` sees it. -/
inductive BEntry
  | frameE (f : List Row)
  | metaE (m : Metadata)

/-- The argument of `select_period`: one dataframe or a bundle. -/
inductive PData
  | frame (f : List Row)
  | bundle (entries : List (String × BEntry))

/-- The dict comprehension `{k: _select(k, v) for k, v in data.items()}`:
`_select` returns non-dataframe values unchanged. -/
def select_entries (t1 t2 : PyTime) (colName : String) :
    List (String × BEntry) → Except PyErr (List (String × BEntry))
  | [] => .ok []
  | (k, .metaE m) :: rest => do
    let r ← select_entries t1 t2 colName rest
    .ok ((k, .metaE m) :: r)
  | (k, .frameE f) :: rest => do
    let f' ← select_frame t1 t2 colName f
    let r ← select_entries t1 t2 colName rest
    .ok ((k, .frameE f') :: r)

/-- `select_period`. -/
def select_period (data : PData) (time_start time_end duration : Option PyTime)
    (colName : String) : Except PyErr PData := do
  let (t1, t2) ← resolve_window time_start time_end duration
  match data with
  | .frame f => do
    let f' ← select_frame t1 t2 colName f
    .ok (.frame f')
  | .bundle es => do
    let es' ← select_entries t1 t2 colName es
    .ok (.bundle es')

/-- Object-level model of `_select` on a dataframe (default `time_absolute`
column): the heap holds every live dataframe object; `df_in.copy()` and
`df_out.loc[mask]` each allocate a new object and nothing writes to an
existing one.  Returns the heap after the call and the index of the
dataframe object the call returns. -/
def select_frame_heap (heap : List (List Row)) (i : Nat) (t1 t2 : Int) :
    List (List Row) × Nat :=
  let dfIn := heap.getD i []
  let heap1 := heap ++ [dfIn]
  let res := dfIn.filter fun r => inWindow t1 t2 r.time_absolute
  (heap1 ++ [res], heap.length + 1)

/-- How many of the three window arguments the caller provided. -/
def providedCount (s e d : Option PyTime) : Nat :=
  (if s.isSome then 1 else 0) + (if e.isSome then 1 else 0)
    + (if d.isSome then 1 else 0)

/-- How many of the three window arguments are Python-truthy. -/
def truthyCount (s e d : Option PyTime) : Nat :=
  (if truthyOpt s then 1 else 0) + (if truthyOpt e then 1 else 0)
    + (if truthyOpt d then 1 else 0)

/-- The path one csv row takes through `parse_file`: classification followed
by heart-rate table construction.  Used to state row-level properties of the
heart-rate pipeline. -/
def hr_row_pipeline (version : ℚ) (row : List String) :
    Except PyErr (List (TRow HrFields) × Nat) :=
  match classify_row version row with
  | .ok (.hr cells) =>
    (dataframe_from_list [cells] hrColTypes).map fun p => (p.1.map toHrRow, p.2)
  | .ok _ => .ok ([], 0)
  | .error e => .error e

/-! ## Helper lemmas -/

theorem wrapInt_eq_self (w : Nat) (n : Int) (hw : 1 ≤ w)
    (hlo : -(2 ^ (w - 1)) ≤ n) (hhi : n < 2 ^ (w - 1)) : wrapInt w n = n := by
  unfold wrapInt
  have hpow : (2 : Int) ^ w = 2 ^ (w - 1) * 2 := by
    conv_lhs => rw [show w = (w - 1) + 1 from (Nat.succ_pred_eq_of_pos hw).symm]
    rw [pow_succ]
  have h0 : 0 ≤ n + 2 ^ (w - 1) := by linarith
  have hlt : n + 2 ^ (w - 1) < 2 ^ w := by rw [hpow]; linarith
  rw [Int.emod_eq_of_lt h0 hlt]
  ring

theorem parseIntPy_ne_empty (s : String) (n : Int) (h : parseIntPy s = some n) :
    s ≠ "" := by
  intro he
  subst he
  simp [parseIntPy, pyTrim] at h

/-! ## Claim theorems -/

/-- C1 (counterexample): the claim states that for version < 0.2 the
`confidence` field of an accepted heart-rate row becomes
`round(source_confidence / 10)` and that no other field is altered.  On the
row `1,720,95,10,20` at version 0.1 the code instead leaves `confidence`
verbatim (95, not `round(95/10)`) and divides `heart_rate_bpm` (720 → 72). -/
theorem C1_counterexample :
    (parse_tables ⟨"UTC", "NOW"⟩ (some ["1,720,95,10,20"]) (mkRat 1 10)).map
        (fun o => o.hr.map fun r => (r.payload.confidence, r.payload.heart_rate_bpm))
      = .ok [((95 : Int), (72 : Int))]
    ∧ (95 : Int) ≠ pyRoundDiv10 95 ∧ (72 : Int) ≠ 720 :=
  ⟨by rfl, by decide, by decide⟩

/-- C1 (amended): for every accepted heart-rate row, `confidence` (the third
field) is kept verbatim at EVERY version; the version-< 0.2 legacy transform
instead replaces `heart_rate_bpm` (the second field, `row[1]`) by
`round(value / 10)` with Python's round-half-to-even; all other fields are
unchanged up to their declared-dtype casts (identity on in-range values). -/
theorem C1_hr_row_transform (version : ℚ) (f0 f1 f2 f3 f4 : String)
    (n0 n1 n2 n3 n4 : Int)
    (h0 : parseIntPy f0 = some n0) (h1 : parseIntPy f1 = some n1)
    (h2 : parseIntPy f2 = some n2) (h3 : parseIntPy f3 = some n3)
    (h4 : parseIntPy f4 = some n4)
    (hd : firstCharIsDigit f0 = true)
    (hr0a : 0 ≤ n0) (hr0b : n0 < 2 ^ 63)
    (hba : -(2 ^ 15) ≤ (if version < versionThreshold then pyRoundDiv10 n1 else n1))
    (hbb : (if version < versionThreshold then pyRoundDiv10 n1 else n1) < 2 ^ 15)
    (hca : 0 ≤ n2) (hcb : n2 < 256)
    (hp3a : -(2 ^ 31) ≤ n3) (hp3b : n3 < 2 ^ 31)
    (hp4a : -(2 ^ 31) ≤ n4) (hp4b : n4 < 2 ^ 31) :
    hr_row_pipeline version [f0, f1, f2, f3, f4]
      = .ok ([⟨n0 * 1000000,
              ⟨(if version < versionThreshold then pyRoundDiv10 n1 else n1),
               n2, n3, n4⟩, none⟩], 0) := by
  have hne0 : f0 ≠ "" := parseIntPy_ne_empty f0 n0 h0
  have hne1 : f1 ≠ "" := parseIntPy_ne_empty f1 n1 h1
  have hne2 : f2 ≠ "" := parseIntPy_ne_empty f2 n2 h2
  have hne3 : f3 ≠ "" := parseIntPy_ne_empty f3 n3 h3
  have hne4 : f4 ≠ "" := parseIntPy_ne_empty f4 n4 h4
  have hA : pyStartsWithA f0 = false := by
    unfold firstCharIsDigit at hd
    unfold pyStartsWithA
    cases hl : f0.toList with
    | nil => rfl
    | cons c cs =>
      rw [hl] at hd
      simp only
      have hcA : c ≠ 'A' := by
        intro hc
        subst hc
        simp [Char.isDigit] at hd
      simp [hcA]
  have hw64 : wrapInt 64 n0 = n0 :=
    wrapInt_eq_self 64 n0 (by norm_num) (by norm_num; linarith)
      (by norm_num at hr0b ⊢; exact hr0b)
  have hw16 : wrapInt 16 (if version < versionThreshold then pyRoundDiv10 n1 else n1)
      = (if version < versionThreshold then pyRoundDiv10 n1 else n1) :=
    wrapInt_eq_self 16 _ (by norm_num) (by norm_num at hba ⊢; exact hba)
      (by norm_num at hbb ⊢; exact hbb)
  have hw32a : wrapInt 32 n3 = n3 :=
    wrapInt_eq_self 32 n3 (by norm_num) (by norm_num at hp3a ⊢; exact hp3a)
      (by norm_num at hp3b ⊢; exact hp3b)
  have hw32b : wrapInt 32 n4 = n4 :=
    wrapInt_eq_self 32 n4 (by norm_num) (by norm_num at hp4a ⊢; exact hp4a)
      (by norm_num at hp4b ⊢; exact hp4b)
  by_cases hv : version < versionThreshold
  · rw [if_pos hv] at hw16
    have hclass : classify_row version [f0, f1, f2, f3, f4]
        = .ok (.hr [Cell.str f0, Cell.int (pyRoundDiv10 n1), Cell.str f2,
                    Cell.str f3, Cell.str f4]) := by
      simp [classify_row, hA, hd, hne0, hv, h1]
    have hcells : hasEmptyCell [Cell.str f0, Cell.int (pyRoundDiv10 n1),
        Cell.str f2, Cell.str f3, Cell.str f4] = false := by
      simp [hasEmptyCell, hne0, hne2, hne3, hne4]
    have hcast : castRow hrColTypes [Cell.str f0, Cell.int (pyRoundDiv10 n1),
        Cell.str f2, Cell.str f3, Cell.str f4]
        = .ok [n0, pyRoundDiv10 n1, n2, n3, n4] := by
      simp [castRow, castCell, cellInt, hrColTypes, h0, h2, h3, h4,
        hw64, hw16, hw32a, hw32b, hca, hcb, bind, Except.bind]
    have hckr : castKeptRows hrColTypes [[Cell.str f0, Cell.int (pyRoundDiv10 n1),
        Cell.str f2, Cell.str f3, Cell.str f4]]
        = .ok [[n0 * 1000000, pyRoundDiv10 n1, n2, n3, n4]] := by
      simp [castKeptRows, castRows, hcast, scaleElapsed, bind, Except.bind,
        pure, Except.pure]
    have hdf : dataframe_from_list [[Cell.str f0, Cell.int (pyRoundDiv10 n1),
        Cell.str f2, Cell.str f3, Cell.str f4]] hrColTypes
        = .ok ([[n0 * 1000000, pyRoundDiv10 n1, n2, n3, n4]], 0) := by
      simp [dataframe_from_list, List.filter, hcells, hckr, bind, Except.bind]
    simp [hr_row_pipeline, hclass, hdf, Except.map, toHrRow, hv]
  · have hclass : classify_row version [f0, f1, f2, f3, f4]
        = .ok (.hr [Cell.str f0, Cell.str f1, Cell.str f2,
                    Cell.str f3, Cell.str f4]) := by
      simp [classify_row, hA, hd, hne0, hv]
    rw [if_neg hv] at hw16
    have hcells : hasEmptyCell [Cell.str f0, Cell.str f1,
        Cell.str f2, Cell.str f3, Cell.str f4] = false := by
      simp [hasEmptyCell, hne0, hne1, hne2, hne3, hne4]
    have hcast : castRow hrColTypes [Cell.str f0, Cell.str f1,
        Cell.str f2, Cell.str f3, Cell.str f4]
        = .ok [n0, n1, n2, n3, n4] := by
      simp [castRow, castCell, cellInt, hrColTypes, h0, h1, h2, h3, h4,
        hw64, hw16, hw32a, hw32b, hca, hcb, bind, Except.bind]
    have hckr : castKeptRows hrColTypes [[Cell.str f0, Cell.str f1,
        Cell.str f2, Cell.str f3, Cell.str f4]]
        = .ok [[n0 * 1000000, n1, n2, n3, n4]] := by
      simp [castKeptRows, castRows, hcast, scaleElapsed, bind, Except.bind,
        pure, Except.pure]
    have hdf : dataframe_from_list [[Cell.str f0, Cell.str f1,
        Cell.str f2, Cell.str f3, Cell.str f4]] hrColTypes
        = .ok ([[n0 * 1000000, n1, n2, n3, n4]], 0) := by
      simp [dataframe_from_list, List.filter, hcells, hckr, bind, Except.bind]
    simp [hr_row_pipeline, hclass, hdf, Except.map, toHrRow, hv]

/-- C1 (witness): the amended transform theorem applied to the concrete row
`5,725,95,10,20` at version 0.1: heart_rate_bpm 725 → round(72.5) = 72,
confidence 95 verbatim, elapsed 5 ms → 5000000 ns, no row dropped. -/
theorem C1_hr_row_transform_witness :
    hr_row_pipeline (mkRat 1 10) ["5", "725", "95", "10", "20"]
      = .ok ([⟨5000000, ⟨72, 95, 10, 20⟩, none⟩], 0) := by
  have h := C1_hr_row_transform (mkRat 1 10) "5" "725" "95" "10" "20" 5 725 95 10 20
    (by rfl) (by rfl) (by rfl) (by rfl) (by rfl) (by rfl)
    (by decide) (by decide) (by decide) (by decide) (by decide) (by decide)
    (by decide) (by decide) (by decide) (by decide)
  exact h.trans (by rfl)

/-- C2 (code divergence): for the claim's scenario — a `START_RECORD` Status
object with `start_UNIXTimeStamp = 1700000000000` followed by the hr row
`5000,72,95,1000,2000` at version ≥ 0.2 — the parsed row has
`time_elapsed = 5 s` (5000000000 ns) and `confidence = 95` as claimed, but
`pd.to_datetime` is called without `unit=ms`, so the start value is taken as
1700000000000 NANOSECONDS; `time_absolute` is 1700000000000 + 5000000000 ns
(1970-01-01T00:28:25Z), not the claimed millisecond interpretation
1700000000000·10^6 + 5000000000 ns (2023-11-14T22:13:25Z). -/
theorem C2_start_timestamp_units :
    (parse_tables ⟨"UTC", "NOW"⟩
        (some ["\x7b\"Status\": \x7b\"state\": \"START_RECORD\"\x7d, \"Record\": \x7b\"UNIXTimeStamp\": 1700000000000\x7d\x7d",
               "5000,72,95,1000,2000"]) (mkRat 3 10)).map
        (fun o => o.hr.map fun r => (r.time_elapsed, r.payload.confidence, r.time_absolute))
      = .ok [((5000000000 : Int), (95 : Int), some (1705000000000 : Int))]
    ∧ (1705000000000 : Int) ≠ 1700000000000 * 1000000 + 5000000000 :=
  ⟨by rfl, by decide⟩

/-- C3 (counterexample): the claim states `parse_file` never raises for any
file content.  But for a file whose single line is the JSON object
`{"Status": {"state": "START_RECORD"}}` (no `Record` key),
`_process_json_objs` evaluates `json_objs[i]["Record"]` outside the reading
loop's `try` and the `KeyError` propagates out of `parse_file`. -/
theorem C3_counterexample :
    parse_file ⟨"UTC", "NOW"⟩
        (some ["\x7b\"Status\": \x7b\"state\": \"START_RECORD\"\x7d\x7d"]) (mkRat 3 10)
      = .error (.keyError "Record") := by rfl

/-- C3 (amended): file-level I/O failure (unreadable file) is caught and
converted into a bundle whose metadata is still fully populated (baseline
keys plus the five summary fields, counts 0 and NaT durations) with no table
keys; exceptions raised while reading lines are caught as diagnostics.
Post-read processing (JSON object shapes, dtype casts), however, can raise. -/
theorem C3_io_failure_bundle (tz now : String) (version : ℚ) :
    parse_file ⟨tz, now⟩ none version
      = .ok ⟨[("Parsed_on", .str now), ("StudyName", .str "NA"),
              ("StudyInstance", .str "NA"), ("n_samples_hr", .int 0),
              ("n_samples_accel", .int 0), ("n_survey_responses", .int 0),
              ("duration_hr", .timedelta none), ("duration_accel", .timedelta none)],
             none, none, none⟩ := by rfl

/-- C4 (counterexample): the claim states that every non-JSON, non-accel,
non-hr line yields an "unknown data" diagnostic and that all later lines are
still processed.  For the line `,x` (empty first field: not JSON, not
`A`-initial, not digit-initial) the code instead raises `IndexError` at
`row[0][0]`, which the top-level handler logs as a read error, ABORTING the
file: the following well-formed hr row `1,2,3,4,5` never reaches the table,
and no unknown-data diagnostic is emitted. -/
theorem C4_counterexample :
    (parse_tables ⟨"UTC", "NOW"⟩ (some [",x", "1,2,3,4,5"]) (mkRat 3 10)).map
        (fun o => (o.hr, o.diags))
      = .ok ([], [.readErr, .noMetadata]) := by rfl

/-- C4 (amended): for every line whose parsed row has a NON-EMPTY first
field that neither starts with the sentinel `A` nor with a decimal digit,
the reading loop emits exactly one "unknown data" diagnostic, drops only
that line, and continues with all subsequent lines; a line whose first csv
field is empty instead raises `IndexError` internally, aborting the read. -/
theorem C4_unknown_row_continues (version : ℚ) (st : PState) (raw : String)
    (ls : List String) (r0 : String) (rest : List String)
    (hne : pyTrim raw ≠ "")
    (hbrace : firstCharIs (pyTrim raw) '{' = false)
    (hsplit : csvSplit (pyTrim raw) = r0 :: rest)
    (hr0 : r0 ≠ "")
    (hA : pyStartsWithA r0 = false)
    (hd : firstCharIsDigit r0 = false) :
    read_lines version (raw :: ls) st
      = read_lines version ls
          { st with lineNo := st.lineNo + 1,
                    diags := st.diags ++ [.unknownData (r0 :: rest)] } := by
  have hstep : step_line version st raw
      = .ok { st with lineNo := st.lineNo + 1,
                      diags := st.diags ++ [.unknownData (r0 :: rest)] } := by
    simp [step_line, hne, hbrace, hsplit, classify_row, hr0, hA, hd]
  simp [read_lines, hstep]

/-- C4 (witness): the amended continuation theorem applied to the concrete
unknown line `xyz,1` at the start of a file. -/
theorem C4_unknown_row_continues_witness :
    read_lines (mkRat 3 10) ["xyz,1"] initState
      = { initState with lineNo := 1, diags := [.unknownData ["xyz", "1"]] } := by
  have h := C4_unknown_row_continues (mkRat 3 10) initState "xyz,1" [] "xyz" ["1"]
    (by decide) (by rfl) (by rfl) (by decide) (by rfl) (by rfl)
  exact h.trans (by rfl)



theorem select_frame_ne_valueError (t1 t2 : PyTime) (col : String) (f : List Row) :
    select_frame t1 t2 col f ≠ .error .valueError := by
  unfold select_frame
  by_cases h1 : col = "time_absolute"
  · simp only [h1, if_true]
    cases t1 <;> cases t2 <;> simp
  · by_cases h2 : col = "time_elapsed"
    · simp only [h1, h2, if_false, if_true]
      cases t1 <;> cases t2 <;> simp
    · simp [h1, h2]

theorem select_entries_ne_valueError (t1 t2 : PyTime) (col : String)
    (es : List (String × BEntry)) :
    select_entries t1 t2 col es ≠ .error .valueError := by
  induction es with
  | nil => simp [select_entries]
  | cons p rest ih =>
    obtain ⟨k, v⟩ := p
    cases v with
    | metaE m =>
      cases h : select_entries t1 t2 col rest with
      | error e =>
        rw [h] at ih
        simp [select_entries, h, bind, Except.bind]
        intro hh
        exact ih (by rw [hh])
      | ok r => simp [select_entries, h, bind, Except.bind]
    | frameE f =>
      cases hf : select_frame t1 t2 col f with
      | error e =>
        have := select_frame_ne_valueError t1 t2 col f
        rw [hf] at this
        simp [select_entries, hf, bind, Except.bind]
        intro hh
        exact this (by rw [hh])
      | ok f' =>
        cases h : select_entries t1 t2 col rest with
        | error e =>
          rw [h] at ih
          simp [select_entries, hf, h, bind, Except.bind]
          intro hh
          exact ih (by rw [hh])
        | ok r => simp [select_entries, hf, h, bind, Except.bind]

theorem select_entries_abs_ts_ok (a b : Int) (es : List (String × BEntry)) :
    ∃ out, select_entries (.ts a) (.ts b) "time_absolute" es = .ok out := by
  induction es with
  | nil => exact ⟨[], rfl⟩
  | cons p rest ih =>
    obtain ⟨k, v⟩ := p
    obtain ⟨out, hout⟩ := ih
    cases v with
    | metaE m => exact ⟨(k, .metaE m) :: out, by simp [select_entries, hout, bind, Except.bind]⟩
    | frameE f =>
      refine ⟨(k, .frameE (f.filter fun r => inWindow a b r.time_absolute)) :: out, ?_⟩
      simp [select_entries, select_frame, hout, bind, Except.bind]

theorem resolve_window_valueError_iff (s e d : Option PyTime) :
    resolve_window s e d = .error .valueError ↔ truthyCount s e d < 2 := by
  by_cases hs : truthyOpt s = true <;> by_cases he : truthyOpt e = true
    <;> by_cases hd : truthyOpt d = true
  · obtain ⟨sv, rfl⟩ : ∃ v, s = some v := by
      cases s with | none => simp [truthyOpt] at hs | some v => exact ⟨v, rfl⟩
    obtain ⟨ev, rfl⟩ : ∃ v, e = some v := by
      cases e with | none => simp [truthyOpt] at he | some v => exact ⟨v, rfl⟩
    simp [resolve_window, truthyCount, hs, he, hd]
  · obtain ⟨sv, rfl⟩ : ∃ v, s = some v := by
      cases s with | none => simp [truthyOpt] at hs | some v => exact ⟨v, rfl⟩
    obtain ⟨ev, rfl⟩ : ∃ v, e = some v := by
      cases e with | none => simp [truthyOpt] at he | some v => exact ⟨v, rfl⟩
    simp [resolve_window, truthyCount, hs, he, hd]
  · obtain ⟨sv, rfl⟩ : ∃ v, s = some v := by
      cases s with | none => simp [truthyOpt] at hs | some v => exact ⟨v, rfl⟩
    obtain ⟨dv, rfl⟩ : ∃ v, d = some v := by
      cases d with | none => simp [truthyOpt] at hd | some v => exact ⟨v, rfl⟩
    cases sv <;> cases dv <;>
      simp [resolve_window, truthyCount, hs, he, hd, addPy, bind, Except.bind]
  · simp [resolve_window, truthyCount, hs, he, hd]
  · obtain ⟨ev, rfl⟩ : ∃ v, e = some v := by
      cases e with | none => simp [truthyOpt] at he | some v => exact ⟨v, rfl⟩
    obtain ⟨dv, rfl⟩ : ∃ v, d = some v := by
      cases d with | none => simp [truthyOpt] at hd | some v => exact ⟨v, rfl⟩
    cases ev <;> cases dv <;>
      simp [resolve_window, truthyCount, hs, he, hd, subPy, bind, Except.bind]
  · simp [resolve_window, truthyCount, hs, he, hd]
  · simp [resolve_window, truthyCount, hs, he, hd]
  · simp [resolve_window, truthyCount, hs, he, hd]



theorem select_period_valueError_iff (data : PData) (s e d : Option PyTime) :
    select_period data s e d "time_absolute" = .error .valueError
      ↔ resolve_window s e d = .error .valueError := by
  cases hrw : resolve_window s e d with
  | error err =>
    have hsel : select_period data s e d "time_absolute" = .error err := by
      cases data <;> simp [select_period, hrw, bind, Except.bind]
    rw [hsel]
    simp
  | ok tt =>
    obtain ⟨t1, t2⟩ := tt
    constructor
    · intro h
      exfalso
      cases data with
      | frame f =>
        cases hsf : select_frame t1 t2 "time_absolute" f with
        | error er =>
          have hne := select_frame_ne_valueError t1 t2 "time_absolute" f
          rw [hsf] at hne
          simp [select_period, hrw, hsf, bind, Except.bind] at h
          exact hne (by rw [h])
        | ok f' => simp [select_period, hrw, hsf, bind, Except.bind] at h
      | bundle es =>
        cases hse : select_entries t1 t2 "time_absolute" es with
        | error er =>
          have hne := select_entries_ne_valueError t1 t2 "time_absolute" es
          rw [hse] at hne
          simp [select_period, hrw, hse, bind, Except.bind] at h
          exact hne (by rw [h])
        | ok es' => simp [select_period, hrw, hse, bind, Except.bind] at h
    · intro h
      simp at h

/-- C5 (amended): `select_period` raises the "two of three required"
`ValueError` if and only if fewer than two of the three window arguments are
Python-TRUTHY (`None` is falsy, and so is a zero `Timedelta`, so a provided
`duration = Timedelta(0)` counts as absent); whenever at least two arguments
are truthy and of the kinds matching the selected `time_absolute` column,
the call does not raise and returns a filtered result. -/
theorem C5_two_of_three :
    (∀ (data : PData) (s e d : Option PyTime),
        (select_period data s e d "time_absolute" = .error .valueError
          ↔ truthyCount s e d < 2))
    ∧ (∀ (data : PData) (s e d : Option PyTime),
        2 ≤ truthyCount s e d →
        (∀ x, s = some x → ∃ a, x = .ts a) →
        (∀ x, e = some x → ∃ a, x = .ts a) →
        (∀ x, d = some x → ∃ a, x = .td a) →
        ∃ out, select_period data s e d "time_absolute" = .ok out) := by
  constructor
  · intro data s e d
    exact (select_period_valueError_iff data s e d).trans
      (resolve_window_valueError_iff s e d)
  · intro data s e d hcount hshape heshape hdshape
    have hok : ∃ a b, resolve_window s e d = .ok (.ts a, .ts b) := by
      by_cases hs : truthyOpt s = true <;> by_cases he : truthyOpt e = true
        <;> by_cases hd : truthyOpt d = true
      · obtain ⟨sv, rfl⟩ : ∃ v, s = some v := by
          cases s with | none => simp [truthyOpt] at hs | some v => exact ⟨v, rfl⟩
        obtain ⟨ev, rfl⟩ : ∃ v, e = some v := by
          cases e with | none => simp [truthyOpt] at he | some v => exact ⟨v, rfl⟩
        obtain ⟨a, rfl⟩ := hshape sv rfl
        obtain ⟨b, rfl⟩ := heshape ev rfl
        exact ⟨a, b, by simp [resolve_window, hs, he]⟩
      · obtain ⟨sv, rfl⟩ : ∃ v, s = some v := by
          cases s with | none => simp [truthyOpt] at hs | some v => exact ⟨v, rfl⟩
        obtain ⟨ev, rfl⟩ : ∃ v, e = some v := by
          cases e with | none => simp [truthyOpt] at he | some v => exact ⟨v, rfl⟩
        obtain ⟨a, rfl⟩ := hshape sv rfl
        obtain ⟨b, rfl⟩ := heshape ev rfl
        exact ⟨a, b, by simp [resolve_window, hs, he]⟩
      · obtain ⟨sv, rfl⟩ : ∃ v, s = some v := by
          cases s with | none => simp [truthyOpt] at hs | some v => exact ⟨v, rfl⟩
        obtain ⟨dv, rfl⟩ : ∃ v, d = some v := by
          cases d with | none => simp [truthyOpt] at hd | some v => exact ⟨v, rfl⟩
        obtain ⟨a, rfl⟩ := hshape sv rfl
        obtain ⟨b, rfl⟩ := hdshape dv rfl
        exact ⟨a, a + b, by simp [resolve_window, hs, he, hd, addPy, bind, Except.bind]⟩
      · exfalso; simp [truthyCount, hs, he, hd] at hcount
      · obtain ⟨ev, rfl⟩ : ∃ v, e = some v := by
          cases e with | none => simp [truthyOpt] at he | some v => exact ⟨v, rfl⟩
        obtain ⟨dv, rfl⟩ : ∃ v, d = some v := by
          cases d with | none => simp [truthyOpt] at hd | some v => exact ⟨v, rfl⟩
        obtain ⟨b, rfl⟩ := heshape ev rfl
        obtain ⟨a, rfl⟩ := hdshape dv rfl
        exact ⟨b - a, b, by simp [resolve_window, hs, he, hd, subPy, bind, Except.bind]⟩
      · exfalso; simp [truthyCount, hs, he, hd] at hcount
      · exfalso; simp [truthyCount, hs, he, hd] at hcount
      · exfalso; simp [truthyCount, hs, he, hd] at hcount
    obtain ⟨a, b, hrw⟩ := hok
    cases data with
    | frame f =>
      exact ⟨.frame (f.filter fun r => inWindow a b r.time_absolute),
        by simp [select_period, hrw, select_frame, bind, Except.bind]⟩
    | bundle es =>
      obtain ⟨out, hout⟩ := select_entries_abs_ts_ok a b es
      exact ⟨.bundle out, by simp [select_period, hrw, hout, bind, Except.bind]⟩

/-- C5 (witness): the amended theorem applied to a one-row frame with
`time_start` and `time_end` both given as timestamps. -/
theorem C5_two_of_three_witness :
    (select_period (.frame [⟨some 5, some 5, 0⟩]) (some (.ts 0)) (some (.ts 10))
        none "time_absolute" = .error .valueError
      ↔ truthyCount (some (.ts 0)) (some (.ts 10)) none < 2)
    ∧ ∃ out, select_period (.frame [⟨some 5, some 5, 0⟩]) (some (.ts 0))
        (some (.ts 10)) none "time_absolute" = .ok out :=
  ⟨C5_two_of_three.1 (.frame [⟨some 5, some 5, 0⟩]) (some (.ts 0)) (some (.ts 10)) none,
   C5_two_of_three.2 (.frame [⟨some 5, some 5, 0⟩]) (some (.ts 0)) (some (.ts 10)) none
     (by decide)
     (fun x hx => ⟨0, (Option.some.inj hx).symm⟩)
     (fun x hx => ⟨10, (Option.some.inj hx).symm⟩)
     (fun x hx => nomatch hx)⟩

/-- C5 (counterexample): the claim states the error is raised iff fewer than
two of the three arguments are PROVIDED.  Here two arguments are provided
(`time_start = Timestamp`, `duration = Timedelta(0)`), yet the call raises
the "two of three" `ValueError`, because `if time_start and duration`
uses Python truthiness and a zero `Timedelta` is falsy. -/
theorem C5_counterexample :
    providedCount (some (.ts 5)) none (some (.td 0)) = 2
    ∧ select_period (.frame [⟨some 5, some 5, 0⟩]) (some (.ts 5)) none
        (some (.td 0)) "time_absolute" = .error .valueError :=
  ⟨by rfl, by rfl⟩



/-- C6: after the back-fill step, for every row index i of an hr or accel
table (any table of `TRow` rows), `time_absolute[i] = time_elapsed[i] +
record_start_timestamp` holds exactly, and when the record start timestamp
is NaT every `time_absolute[i]` is itself NaT (propagation, never an
error). -/
theorem C6_backfill {α : Type} (m : Metadata) (df : List (TRow α)) (i : Nat) :
    (process_absolute_timestamps m df)[i]?
      = (df[i]?).map (fun r =>
          { r with time_absolute := (get_start_timestamp m).map fun s => r.time_elapsed + s })
    ∧ (get_start_timestamp m = none →
        (process_absolute_timestamps m df)[i]?
          = (df[i]?).map fun r => { r with time_absolute := none }) := by
  constructor
  · simp [process_absolute_timestamps]
  · intro h
    simp [process_absolute_timestamps, h]

/-- C6 (witness): the back-fill equation evaluated on a concrete one-row
table, once with a valid start timestamp (40 + 7 = 47) and once with a
missing one (NaT propagates). -/
theorem C6_backfill_witness :
    get_start_timestamp ([("start_UNIXTimeStamp", PyVal.int 40)] : Metadata) = some 40
    ∧ (process_absolute_timestamps [("start_UNIXTimeStamp", PyVal.int 40)]
        [(⟨7, HrFields.mk 1 2 3 4, none⟩ : TRow HrFields)])[0]?
        = some ⟨7, HrFields.mk 1 2 3 4, some 47⟩
    ∧ (process_absolute_timestamps ([] : Metadata)
        [(⟨7, HrFields.mk 1 2 3 4, none⟩ : TRow HrFields)])[0]?
        = some ⟨7, HrFields.mk 1 2 3 4, none⟩ := by
  refine ⟨by rfl, ?_, ?_⟩
  · have h := (C6_backfill [("start_UNIXTimeStamp", PyVal.int 40)]
      [(⟨7, HrFields.mk 1 2 3 4, none⟩ : TRow HrFields)] 0).1
    exact h.trans (by rfl)
  · have h := (C6_backfill ([] : Metadata)
      [(⟨7, HrFields.mk 1 2 3 4, none⟩ : TRow HrFields)] 0).2 (by rfl)
    exact h.trans (by rfl)

/-- C7 (amended): for every table or bundle, every timestamp T and every
NON-ZERO duration D, selecting with `time_start = T, time_end = T + D`
yields exactly the same result as selecting with `time_start = T,
duration = D` (both resolve the window [T, T+D]).  For D = Timedelta(0) the
two calls differ: `T + D` is a truthy Timestamp but `D` itself is falsy, so
the duration form raises the two-of-three error. -/
theorem C7_window_equiv (data : PData) (T D : Int) (col : String) (hD : D ≠ 0) :
    select_period data (some (.ts T)) (some (.ts (T + D))) none col
      = select_period data (some (.ts T)) none (some (.td D)) col := by
  have h1 : resolve_window (some (.ts T)) (some (.ts (T + D))) none
      = .ok (.ts T, .ts (T + D)) := by
    simp [resolve_window, truthyOpt, PyTime.truthy]
  have h2 : resolve_window (some (.ts T)) none (some (.td D))
      = .ok (.ts T, .ts (T + D)) := by
    simp [resolve_window, truthyOpt, PyTime.truthy, hD, addPy, bind, Except.bind]
  cases data <;> simp [select_period, h1, h2]

/-- C7 (witness): the amended round-trip equivalence at T = 0, D = 5 on a
one-row frame. -/
theorem C7_window_equiv_witness :
    select_period (.frame [⟨some 3, some 0, 0⟩]) (some (.ts 0)) (some (.ts (0 + 5)))
        none "time_absolute"
      = select_period (.frame [⟨some 3, some 0, 0⟩]) (some (.ts 0)) none
        (some (.td 5)) "time_absolute" :=
  C7_window_equiv (.frame [⟨some 3, some 0, 0⟩]) 0 5 "time_absolute" (by decide)

/-- C7 (counterexample): the claim quantifies over EVERY duration D.  At
D = Timedelta(0) the end-form call succeeds (window [T, T]) while the
duration-form call raises `ValueError`, so the two row sets are not
identical. -/
theorem C7_counterexample :
    select_period (.frame [⟨some 100, some 0, 0⟩]) (some (.ts 100))
        (some (.ts (100 + 0))) none "time_absolute"
      = .ok (.frame [⟨some 100, some 0, 0⟩])
    ∧ select_period (.frame [⟨some 100, some 0, 0⟩]) (some (.ts 100)) none
        (some (.td 0)) "time_absolute"
      = .error .valueError
    ∧ select_period (.frame [⟨some 100, some 0, 0⟩]) (some (.ts 100))
        (some (.ts (100 + 0))) none "time_absolute"
      ≠ select_period (.frame [⟨some 100, some 0, 0⟩]) (some (.ts 100)) none
        (some (.td 0)) "time_absolute" := by
  have hA : select_period (.frame [⟨some 100, some 0, 0⟩]) (some (.ts 100))
      (some (.ts (100 + 0))) none "time_absolute"
      = .ok (.frame [⟨some 100, some 0, 0⟩]) := by rfl
  have hB : select_period (.frame [⟨some 100, some 0, 0⟩]) (some (.ts 100)) none
      (some (.td 0)) "time_absolute" = .error .valueError := by rfl
  refine ⟨hA, hB, ?_⟩
  rw [hA, hB]
  simp



theorem dictGet_dictSet_self (m : Metadata) (k : String) (v : PyVal) :
    dictGet (dictSet m k v) k = some v := by
  induction m with
  | nil => simp [dictSet, dictGet]
  | cons p t ih =>
    obtain ⟨k', v'⟩ := p
    by_cases h : k' = k
    · simp [dictSet, dictGet, h]
    · simp [dictSet, dictGet, h, ih]

theorem dictGet_dictSet_ne (m : Metadata) (k k' : String) (v : PyVal)
    (h : k ≠ k') : dictGet (dictSet m k v) k' = dictGet m k' := by
  induction m with
  | nil => simp [dictSet, dictGet, h]
  | cons p t ih =>
    obtain ⟨k0, v0⟩ := p
    by_cases h0 : k0 = k
    · subst h0
      simp [dictSet, dictGet, h]
    · by_cases h1 : k0 = k'
      · subst h1
        simp [dictSet, dictGet, h0, Ne.symm h]
      · simp [dictSet, dictGet, h0, h1, ih]

theorem length_sub_filter_not {α : Type} (p : α → Bool) (l : List α) :
    l.length - (l.filter fun a => !(p a)).length = l.countP p := by
  induction l with
  | nil => simp
  | cons a t ih =>
    have hle : (t.filter fun a => !(p a)).length ≤ t.length :=
      List.length_filter_le _ t
    by_cases h : p a <;> simp [List.filter_cons, List.countP_cons, h] <;> omega

/-- C9: in row-to-table conversion (`_dataframe_from_list`, as used for the
hr and accel batches), the reported dropped-row count equals exactly the
number of source rows containing an empty-string field, and the resulting
table is exactly the cast image, in order, of the rows with no empty field
(rows with an empty field are absent, all others present). -/
theorem C9_drop_missing (rows : List (List Cell)) (ts : List ColType)
    (out : List (List Int)) (n : Nat)
    (hok : dataframe_from_list rows ts = .ok (out, n)) :
    n = rows.countP hasEmptyCell
    ∧ castKeptRows ts (rows.filter fun r => !(hasEmptyCell r)) = .ok out := by
  unfold dataframe_from_list at hok
  cases h : castKeptRows ts (rows.filter fun r => !(hasEmptyCell r)) with
  | error e => simp [h, bind, Except.bind] at hok
  | ok c =>
    simp [h, bind, Except.bind] at hok
    obtain ⟨ho, hn⟩ := hok
    subst ho
    subst hn
    exact ⟨length_sub_filter_not hasEmptyCell rows, rfl⟩

/-- C9 (witness): a two-row batch where one row has an empty cell — one row
dropped, the other present as its cast (and ms→ns scaled) image. -/
theorem C9_drop_missing_witness :
    1 = ([[Cell.str "1", Cell.str ""], [Cell.str "2", Cell.str "3"]].countP hasEmptyCell)
    ∧ castKeptRows [ColType.i64, ColType.i64]
        ([[Cell.str "1", Cell.str ""], [Cell.str "2", Cell.str "3"]].filter
          fun r => !(hasEmptyCell r))
      = .ok [[2000000, 3]] :=
  C9_drop_missing [[Cell.str "1", Cell.str ""], [Cell.str "2", Cell.str "3"]]
    [ColType.i64, ColType.i64] [[2000000, 3]] 1 (by rfl)



/-- C8: `select_period` never mutates its input.  At the object level,
`_select` only reads the input dataframe: after the call every pre-existing
heap object is unchanged and the returned dataframe is a freshly allocated
object holding the filtered copy.  At the value level, every non-table
entry of a bundle (e.g. the metadata mapping) appears in the output
unfiltered and unchanged. -/
theorem C8_select_no_mutation :
    (∀ (heap : List (List Row)) (i : Nat) (t1 t2 : Int) (j : Nat),
        j < heap.length →
          ((select_frame_heap heap i t1 t2).1)[j]? = heap[j]?)
    ∧ (∀ (heap : List (List Row)) (i : Nat) (t1 t2 : Int),
        heap.length ≤ (select_frame_heap heap i t1 t2).2
        ∧ ((select_frame_heap heap i t1 t2).1)[(select_frame_heap heap i t1 t2).2]?
            = some ((heap.getD i []).filter fun r => inWindow t1 t2 r.time_absolute))
    ∧ (∀ (es out : List (String × BEntry)) (t1 t2 : PyTime) (col : String)
        (k : String) (m : Metadata),
        select_entries t1 t2 col es = .ok out →
        (k, .metaE m) ∈ es → (k, .metaE m) ∈ out) := by
  refine ⟨?_, ?_, ?_⟩
  · intro heap i t1 t2 j hj
    show ((heap ++ [heap.getD i []]) ++ [_])[j]? = heap[j]?
    rw [List.getElem?_append, if_pos (by simp; omega), List.getElem?_append, if_pos hj]
  · intro heap i t1 t2
    constructor
    · show heap.length ≤ heap.length + 1
      omega
    · show ((heap ++ [heap.getD i []]) ++ [_])[heap.length + 1]? = _
      rw [List.getElem?_append_right (by simp)]
      simp
  · intro es
    induction es with
    | nil =>
      intro out t1 t2 col k m hok hmem
      simp at hmem
    | cons p rest ih =>
      intro out t1 t2 col k m hok hmem
      obtain ⟨k0, v0⟩ := p
      cases v0 with
      | metaE m0 =>
        cases hrest : select_entries t1 t2 col rest with
        | error e => simp [select_entries, hrest, bind, Except.bind] at hok
        | ok r =>
          simp [select_entries, hrest, bind, Except.bind] at hok
          subst hok
          rcases List.mem_cons.mp hmem with heq | htail
          · exact List.mem_cons.mpr (Or.inl heq)
          · exact List.mem_cons_of_mem _ (ih r t1 t2 col k m hrest htail)
      | frameE f =>
        cases hf : select_frame t1 t2 col f with
        | error e => simp [select_entries, hf, bind, Except.bind] at hok
        | ok f' =>
          cases hrest : select_entries t1 t2 col rest with
          | error e => simp [select_entries, hf, hrest, bind, Except.bind] at hok
          | ok r =>
            simp [select_entries, hf, hrest, bind, Except.bind] at hok
            subst hok
            rcases List.mem_cons.mp hmem with hfeq | htail
            · exact absurd hfeq (by simp)
            · exact List.mem_cons_of_mem _ (ih r t1 t2 col k m hrest htail)



theorem assemble_meta_shape (pr : Parser) (st : PState) (o : ParseOut)
    (h : assemble_tables pr st = .ok o) :
    dictGet o.meta "n_samples_hr" = some (.int (o.hr.length : Int))
    ∧ dictGet o.meta "n_samples_accel" = some (.int (o.accel.length : Int))
    ∧ dictGet o.meta "n_survey_responses" = some (.int (o.survey.length : Int))
    ∧ dictGet o.meta "duration_hr" = some (.timedelta (maxElapsed o.hr))
    ∧ dictGet o.meta "duration_accel" = some (.timedelta (maxElapsed o.accel)) := by
  unfold assemble_tables at h
  cases h1 : dataframe_from_list st.rowsHr hrColTypes with
  | error e => simp [h1, bind, Except.bind] at h
  | ok p1 =>
    obtain ⟨hrCast, nDropHr⟩ := p1
    cases h2 : dataframe_from_list st.rowsAccel accelColTypes with
    | error e => simp [h1, h2, bind, Except.bind] at h
    | ok p2 =>
      obtain ⟨accelCast, nDropAccel⟩ := p2
      cases h3 : process_json_objs pr st.jsonObjs with
      | error e => simp [h1, h2, h3, bind, Except.bind] at h
      | ok p3 =>
        obtain ⟨meta1, survey, jsonDiags⟩ := p3
        simp [h1, h2, h3, bind, Except.bind] at h
        subst h
        simp [update_metadata, dictGet_dictSet_self, dictGet_dictSet_ne]



/-- C10: whenever `parse_file` returns (including for an unreadable file),
the returned metadata contains all five summary keys; for each table, the
bundle key is present iff the table is non-empty: an absent key comes with
count 0 (and NaT duration for hr/accel), a present key holds a non-empty
list whose length is the recorded count. -/
theorem C10_bundle_invariants (pr : Parser) (file : Option (List String))
    (version : ℚ) (fd : FileData)
    (hok : parse_file pr file version = .ok fd) :
    ((dictGet fd.metadata "n_samples_hr").isSome
      ∧ (dictGet fd.metadata "n_samples_accel").isSome
      ∧ (dictGet fd.metadata "n_survey_responses").isSome
      ∧ (dictGet fd.metadata "duration_hr").isSome
      ∧ (dictGet fd.metadata "duration_accel").isSome)
    ∧ (fd.data_hr = none → dictGet fd.metadata "n_samples_hr" = some (.int 0)
        ∧ dictGet fd.metadata "duration_hr" = some (.timedelta none))
    ∧ (∀ l, fd.data_hr = some l → l ≠ []
        ∧ dictGet fd.metadata "n_samples_hr" = some (.int (l.length : Int)))
    ∧ (fd.data_accel = none → dictGet fd.metadata "n_samples_accel" = some (.int 0)
        ∧ dictGet fd.metadata "duration_accel" = some (.timedelta none))
    ∧ (∀ l, fd.data_accel = some l → l ≠ []
        ∧ dictGet fd.metadata "n_samples_accel" = some (.int (l.length : Int)))
    ∧ (fd.data_survey = none →
        dictGet fd.metadata "n_survey_responses" = some (.int 0))
    ∧ (∀ l, fd.data_survey = some l → l ≠ []
        ∧ dictGet fd.metadata "n_survey_responses" = some (.int (l.length : Int))) := by
  unfold parse_file parse_tables at hok
  cases hpt : assemble_tables pr (read_state file version) with
  | error e => rw [hpt] at hok; simp [bind, Except.bind] at hok
  | ok o =>
    rw [hpt] at hok
    simp [bind, Except.bind, pure, Except.pure] at hok
    obtain ⟨m1, m2, m3, m4, m5⟩ := assemble_meta_shape pr _ o hpt
    subst hok
    refine ⟨⟨by simp [m1], by simp [m2], by simp [m3], by simp [m4], by simp [m5]⟩,
      ?_, ?_, ?_, ?_, ?_, ?_⟩
    · intro hnone
      by_cases he : o.hr = []
      · exact ⟨by simpa [he] using m1, by simpa [he, maxElapsed] using m4⟩
      · simp [he] at hnone
    · intro l hl
      by_cases he : o.hr = []
      · simp [he] at hl
      · simp [he] at hl
        subst hl
        exact ⟨he, by simpa using m1⟩
    · intro hnone
      by_cases he : o.accel = []
      · exact ⟨by simpa [he] using m2, by simpa [he, maxElapsed] using m5⟩
      · simp [he] at hnone
    · intro l hl
      by_cases he : o.accel = []
      · simp [he] at hl
      · simp [he] at hl
        subst hl
        exact ⟨he, by simpa using m2⟩
    · intro hnone
      by_cases he : o.survey.isEmpty
      · have hnil : o.survey = [] := List.isEmpty_iff.mp he
        simpa [hnil] using m3
      · simp [he] at hnone
    · intro l hl
      by_cases he : o.survey.isEmpty
      · simp [he] at hl
      · simp [he] at hl
        subst hl
        refine ⟨?_, by simpa using m3⟩
        intro hnil
        exact he (by simp [hnil])

/-- C8 (witness): the frame-effect theorem applied to a one-object heap and
the metadata pass-through applied to a concrete two-entry bundle. -/
theorem C8_select_no_mutation_witness :
    ((select_frame_heap [[⟨some 5, some 5, 7⟩]] 0 0 10).1)[0]?
      = some [⟨some 5, some 5, 7⟩]
    ∧ 1 ≤ (select_frame_heap [[⟨some 5, some 5, 7⟩]] 0 0 10).2
    ∧ ("metadata", BEntry.metaE [("k", PyVal.int 1)])
        ∈ [("metadata", BEntry.metaE [("k", PyVal.int 1)]),
           ("data_hr", BEntry.frameE [⟨some 5, some 5, 7⟩])] := by
  refine ⟨?_, (C8_select_no_mutation.2.1 [[⟨some 5, some 5, 7⟩]] 0 0 10).1, ?_⟩
  · exact (C8_select_no_mutation.1 [[⟨some 5, some 5, 7⟩]] 0 0 10 0 (by decide)).trans
      (by rfl)
  · exact C8_select_no_mutation.2.2
      [("metadata", .metaE [("k", PyVal.int 1)]),
       ("data_hr", .frameE [⟨some 5, some 5, 7⟩])]
      [("metadata", .metaE [("k", PyVal.int 1)]),
       ("data_hr", .frameE [⟨some 5, some 5, 7⟩])]
      (.ts 0) (.ts 10) "time_absolute" "metadata" [("k", PyVal.int 1)]
      (by rfl) (List.mem_cons_self _ _)

/-- C10 (witness): the bundle-shape theorem applied to the unreadable-file
call: metadata keys present, zero counts, NaT duration, no table keys. -/
theorem C10_bundle_invariants_witness :
    (dictGet [("Parsed_on", PyVal.str "NOW"), ("StudyName", PyVal.str "NA"),
        ("StudyInstance", PyVal.str "NA"), ("n_samples_hr", PyVal.int 0),
        ("n_samples_accel", PyVal.int 0), ("n_survey_responses", PyVal.int 0),
        ("duration_hr", PyVal.timedelta none),
        ("duration_accel", PyVal.timedelta none)] "n_samples_hr").isSome
    ∧ dictGet [("Parsed_on", PyVal.str "NOW"), ("StudyName", PyVal.str "NA"),
        ("StudyInstance", PyVal.str "NA"), ("n_samples_hr", PyVal.int 0),
        ("n_samples_accel", PyVal.int 0), ("n_survey_responses", PyVal.int 0),
        ("duration_hr", PyVal.timedelta none),
        ("duration_accel", PyVal.timedelta none)] "duration_hr"
      = some (PyVal.timedelta none) := by
  have h := C10_bundle_invariants ⟨"UTC", "NOW"⟩ none (mkRat 3 10)
    ⟨[("Parsed_on", PyVal.str "NOW"), ("StudyName", PyVal.str "NA"),
      ("StudyInstance", PyVal.str "NA"), ("n_samples_hr", PyVal.int 0),
      ("n_samples_accel", PyVal.int 0), ("n_survey_responses", PyVal.int 0),
      ("duration_hr", PyVal.timedelta none),
      ("duration_accel", PyVal.timedelta none)], none, none, none⟩ (by rfl)
  exact ⟨h.1.1, (h.2.1 (by rfl)).2⟩

end Beatwatch
